import Mathlib

/-! Minimal sample application (`Minimal/Minimal.cpp`)

A shallow embedding of the three lifecycle callbacks of `MinimalApp`
(`on_init`, `on_update`, `on_render`, plus the empty `on_resize`) and of the
state they touch.  Calls into the host framework are recorded as operations
appended to a log, in the order the source issues them; `f32` values are
taken in exact rational arithmetic.
-/

namespace Minimal

/-! ## Framework value types -/

/-- Scalar type `f32` of the source, taken in exact arithmetic. -/
abbrev f32 := ℚ

/-- Three-component vector `v3` of the framework. -/
structure v3 where
  x : f32
  y : f32
  z : f32

/-- Modelled from the spec: the framework matrix type `m4x4` is declared in
`Framework.h`, which is not part of the sources at hand; it is a 4x4 matrix of
scalars. -/
structure m4x4 where
  m : Matrix (Fin 4) (Fin 4) ℚ

/-- Modelled from the spec: `m4x4::Identity` (declared in the framework), the
identity transform. -/
def m4x4.Identity : m4x4 := ⟨1⟩

/-- Modelled from the spec: `m4x4::Transpose` (declared in the framework),
"transposing matrices". -/
def m4x4.Transpose (a : m4x4) : m4x4 := ⟨a.m.transpose⟩

/-- Modelled from the spec: `operator*` on `m4x4` (declared in the framework),
the matrix product that combines model, view and projection transforms. -/
def m4x4.mul (a b : m4x4) : m4x4 := ⟨a.m * b.m⟩

instance : Mul m4x4 := ⟨m4x4.mul⟩

/-- Modelled from the spec: `m4x4::CreateTranslation` (declared in the
framework), a pure translation; with the row-vector convention of the
framework the offsets sit in the last row. -/
def m4x4.CreateTranslation (t : v3) : m4x4 :=
  ⟨Matrix.of (fun (r c : Fin 4) =>
    if r = c then 1
    else if r = 3 then (if c = 0 then t.x else if c = 1 then t.y else t.z)
    else 0)⟩

/-- A point of space as the row vector `(x, y, z, 1)` that `m4x4` transforms. -/
def v3.toRow (p : v3) : Fin 4 → ℚ :=
  fun c => if c = 0 then p.x else if c = 1 then p.y else if c = 2 then p.z else 1

/-- Component-wise sum of two vectors. -/
def v3.add (p t : v3) : v3 := ⟨p.x + t.x, p.y + t.y, p.z + t.z⟩

/-! ## GPU objects and the operations issued to the framework -/

/-- A GPU object created by the device.  Pointers of the source are
`Option Handle`, with `none` for `nullptr`. -/
abbrev Handle := Nat

/-- `HRESULT` of a Direct3D call. -/
abbrev HRESULT := Int

/-- The `FAILED` test of the Windows headers: a result is a failure exactly
when it is negative. -/
def FAILED (hr : HRESULT) : Bool := decide (hr < 0)

/-- Framework class `ShaderSet`: the compiled shaders it holds, or nothing
before `init`. -/
structure ShaderSet where
  handle : Option Handle

/-- Framework class `Mesh`: the vertex and index buffers it holds, or nothing
before it is created. -/
structure Mesh where
  handle : Option Handle

/-- Framework class `Texture`: the image resource it holds, or nothing before
it is loaded. -/
structure Texture where
  handle : Option Handle

/-- The shader stages a texture can be bound to. -/
inductive ShaderStage where
  | kVertex
  | kPixel
deriving DecidableEq

/-- What the device was asked to create, with the arguments of the call. -/
inductive ResourceDesc where
  | shaderSet (file vs ps : String)
  | constantBuffer (type : String)
  | meshCube (size : f32)
  | meshObj (path : String) (scale : f32)
  | textureDds (path : String)
  | sampler (addressMode : String)
deriving DecidableEq

/-- The device `pD3DDevice`: the objects created so far, and the next free
handle. -/
structure Device where
  nextHandle : Handle
  created : List (Handle × ResourceDesc)

/-- Creation of one GPU object: the framework's creation functions are taken
to succeed, as the source takes them, and hand out the next free handle. -/
def Device.create (d : Device) (desc : ResourceDesc) : Device × Handle :=
  ({ nextHandle := d.nextHandle + 1, created := d.created ++ [(d.nextHandle, desc)] },
    d.nextHandle)

/-- The per-frame uniform block of the source. -/
structure PerFrameCBData where
  m_matProjection : m4x4
  m_matView : m4x4
  m_time : f32
  m_padding : Fin 3 → f32

/-- The per-draw uniform block of the source. -/
structure PerDrawCBData where
  m_matMVP : m4x4

/-- A fixed array of two elements, as `Mesh m_meshArray[2]` and
`Texture m_textures[2]`. -/
structure Array2 (α : Type) where
  e0 : α
  e1 : α

/-- Declared length of the two arrays of the application. -/
def Array2.size {α : Type} (_ : Array2 α) : Nat := 2

/-- Checked indexing: an index outside the array gives `none`. -/
def Array2.get? {α : Type} (a : Array2 α) (i : Nat) : Option α :=
  match i with
  | 0 => some a.e0
  | 1 => some a.e1
  | _ => none

/-- Write of one element; an index outside the array leaves it as it is. -/
def Array2.set {α : Type} (a : Array2 α) (i : Nat) (v : α) : Array2 α :=
  match i with
  | 0 => { a with e0 := v }
  | 1 => { a with e1 := v }
  | _ => a

/-- Calls made on the immediate context `pD3DContext`, directly or through a
framework helper, in the order they are issued.  Operations on an element of
`m_meshArray` or `m_textures` also carry the index used to reach it. -/
inductive D3DOp where
  | Map (buffer : Option Handle) (hr : HRESULT)
  | memcpy (buffer : Option Handle) (data : PerFrameCBData)
  | Unmap (buffer : Option Handle)
  | shaderBind (shader : ShaderSet)
  | VSSetConstantBuffers (startSlot : Nat) (buffers : List (Option Handle))
  | PSSetConstantBuffers (startSlot : Nat) (buffers : List (Option Handle))
  | PSSetSamplers (startSlot : Nat) (samplers : List (Option Handle))
  | meshBind (index : Nat) (mesh : Mesh)
  | textureBind (index : Nat) (texture : Texture) (stage : ShaderStage) (slot : Nat)
  | push_constant_buffer (buffer : Option Handle) (data : PerDrawCBData)
  | meshDraw (index : Nat) (mesh : Mesh)

/-- Colours of the debug-draw library used by the sample. -/
inductive DDColor where
  | DimGray
  | Blue
  | White
deriving DecidableEq

/-- Calls made on the debug-draw context `pDebugDrawContext`. -/
inductive DDOp where
  | editorHud
  | xzSquareGrid (mins maxs y step : f32) (color : DDColor)
  | axisTriad (transform : m4x4) (size length : f32)
  | box (center : v3) (color : DDColor) (width height depth : f32)
  | projectedText (str : String) (pos : v3) (color : DDColor) (vpMatrix : m4x4)
      (sx sy sw sh : Int) (scaling : f32)

/-- The camera of the framework, as far as the sample reads or writes it. -/
structure Camera where
  eye : v3
  projMatrix : m4x4
  viewMatrix : m4x4
  vpMatrix : m4x4

/-- What `SystemsInterface` gives access to: the device, the log of calls on
the immediate context, the log of debug-draw calls, the camera and the size
of the window. -/
structure SystemsInterface where
  pD3DDevice : Device
  pD3DContext : List D3DOp
  pDebugDrawContext : List DDOp
  pCamera : Camera
  width : Int
  height : Int

/-- Framework code the sample calls and whose result it depends on, taken as
parameters: `Camera::look_at`, `Camera::pointInFrustum`, and the values left
by the two ImGui sliders. -/
structure Framework where
  look_at : Camera → v3 → Camera
  pointInFrustum : Camera → v3 → Bool
  SliderFloat3 : String → v3 → f32 → f32 → v3
  SliderFloat : String → f32 → f32 → f32 → f32

/-- The fields of `MinimalApp`. -/
structure MinimalApp where
  m_perFrameCBData : PerFrameCBData
  m_pPerFrameCB : Option Handle
  m_perDrawCBData : PerDrawCBData
  m_pPerDrawCB : Option Handle
  m_meshShader : ShaderSet
  m_meshArray : Array2 Mesh
  m_textures : Array2 Texture
  m_pLinearMipSamplerState : Option Handle
  m_position : v3
  m_size : f32

/-- Append one call to the log of the immediate context. -/
def SystemsInterface.d3d (s : SystemsInterface) (op : D3DOp) : SystemsInterface :=
  { s with pD3DContext := s.pD3DContext ++ [op] }

/-- Append one call to the log of the debug-draw context. -/
def SystemsInterface.dd (s : SystemsInterface) (op : DDOp) : SystemsInterface :=
  { s with pDebugDrawContext := s.pDebugDrawContext ++ [op] }

/-- Create one GPU object on the device of `s`. -/
def SystemsInterface.create (s : SystemsInterface) (desc : ResourceDesc) :
    SystemsInterface × Handle :=
  ({ s with pD3DDevice := (s.pD3DDevice.create desc).1 }, (s.pD3DDevice.create desc).2)

/-! ## The callbacks of `MinimalApp` -/

/-- The callback `on_init`: place the box and the camera, create every GPU
object once, and reset the time accumulator. -/
def on_init (fw : Framework) (app : MinimalApp) (systems : SystemsInterface) :
    MinimalApp × SystemsInterface :=
  let app : MinimalApp := { app with m_position := ⟨1 / 2, 1 / 2, 1 / 2⟩ }
  let app : MinimalApp := { app with m_size := 1 }
  let systems : SystemsInterface := { systems with pCamera := { systems.pCamera with eye := ⟨10, 5, 7⟩ } }
  let systems : SystemsInterface := { systems with pCamera := fw.look_at systems.pCamera ⟨3, 1 / 2, 0⟩ }
  -- compile a set of shaders
  let r : SystemsInterface × Handle := systems.create (.shaderSet "Assets/Shaders/MinimalShaders.fx" "VS_Mesh" "PS_Mesh")
  let systems : SystemsInterface := r.1
  let app : MinimalApp := { app with m_meshShader := ⟨some r.2⟩ }
  -- create the two constant buffers
  let r : SystemsInterface × Handle := systems.create (.constantBuffer "PerFrameCBData")
  let systems : SystemsInterface := r.1
  let app : MinimalApp := { app with m_pPerFrameCB := some r.2 }
  let r : SystemsInterface × Handle := systems.create (.constantBuffer "PerDrawCBData")
  let systems : SystemsInterface := r.1
  let app : MinimalApp := { app with m_pPerDrawCB := some r.2 }
  -- a mesh made directly, and one read from an .OBJ file
  let r : SystemsInterface × Handle := systems.create (.meshCube (1 / 2))
  let systems : SystemsInterface := r.1
  let app : MinimalApp := { app with m_meshArray := app.m_meshArray.set 0 ⟨some r.2⟩ }
  let r : SystemsInterface × Handle := systems.create (.meshObj "Assets/Models/apple.obj" (1 / 100))
  let systems : SystemsInterface := r.1
  let app : MinimalApp := { app with m_meshArray := app.m_meshArray.set 1 ⟨some r.2⟩ }
  -- the textures
  let r : SystemsInterface × Handle := systems.create (.textureDds "Assets/Textures/brick.dds")
  let systems : SystemsInterface := r.1
  let app : MinimalApp := { app with m_textures := app.m_textures.set 0 ⟨some r.2⟩ }
  let r : SystemsInterface × Handle := systems.create (.textureDds "Assets/Textures/apple_diffuse.dds")
  let systems : SystemsInterface := r.1
  let app : MinimalApp := { app with m_textures := app.m_textures.set 1 ⟨some r.2⟩ }
  -- the sampler state
  let r : SystemsInterface × Handle := systems.create (.sampler "D3D11_TEXTURE_ADDRESS_WRAP")
  let systems : SystemsInterface := r.1
  let app : MinimalApp := { app with m_pLinearMipSamplerState := some r.2 }
  -- setup per-frame data
  let app : MinimalApp := { app with m_perFrameCBData := { app.m_perFrameCBData with m_time := 0 } }
  (app, systems)

/-- The callback `on_update`: draw the editor overlay, read the two sliders,
and refresh the per-frame data from the camera. -/
def on_update (fw : Framework) (app : MinimalApp) (systems : SystemsInterface) :
    MinimalApp × SystemsInterface :=
  let systems := systems.dd .editorHud
  let app := { app with m_position := fw.SliderFloat3 "Position" app.m_position (-1) 1 }
  let app := { app with m_size := fw.SliderFloat "Size" app.m_size (1 / 10) 10 }
  -- update per-frame data
  let app := { app with m_perFrameCBData :=
    { app.m_perFrameCBData with m_matProjection := systems.pCamera.projMatrix.Transpose } }
  let app := { app with m_perFrameCBData :=
    { app.m_perFrameCBData with m_matView := systems.pCamera.viewMatrix.Transpose } }
  let app := { app with m_perFrameCBData :=
    { app.m_perFrameCBData with m_time := app.m_perFrameCBData.m_time + 1 / 1000 } }
  (app, systems)

/-- The constant `kGridSpacing` of `on_render`. -/
def kGridSpacing : f32 := 3 / 2

/-- The constant `kNumInstances` of `on_render`. -/
def kNumInstances : Nat := 5

/-- The constant `kNumModelTypes` of `on_render`. -/
def kNumModelTypes : Nat := 2

/-- The loop `for (u32 i = start; i < bound; ++i) body`, where the body may
fail on an index out of range.  The counters of the sample stay below 5, far
from the wrap-around of `u32`. -/
def forLoop {σ : Type} (bound : Nat) (body : Nat → σ → Option σ) (i : Nat) (s : σ) :
    Option σ :=
  if i < bound then
    match body i s with
    | some s1 => forLoop bound body (i + 1) s1
    | none => none
  else some s
termination_by bound - i

/-- Body of the inner loop of `on_render`: compute the matrix of instance `j`
of model `i`, push it to the per-draw constant buffer and draw the mesh. -/
def renderInstance (i j : Nat) (st : MinimalApp × SystemsInterface) :
    Option (MinimalApp × SystemsInterface) :=
  let app := st.1
  let systems := st.2
  -- compute the MVP matrix
  let matModel := m4x4.CreateTranslation ⟨(j : ℚ) * kGridSpacing, (i : ℚ) * kGridSpacing, 0⟩
  let matMVP := matModel * systems.pCamera.vpMatrix
  -- update per-draw data
  let app := { app with m_perDrawCBData := { app.m_perDrawCBData with m_matMVP := matMVP.Transpose } }
  -- push to the GPU
  let systems := systems.d3d (.push_constant_buffer app.m_pPerDrawCB app.m_perDrawCBData)
  -- draw the mesh
  match app.m_meshArray.get? i with
  | none => none
  | some mesh => some (app, systems.d3d (.meshDraw i mesh))

/-- Body of the outer loop of `on_render`: bind mesh and texture `i`, then
draw the instances. -/
def renderModel (i : Nat) (st : MinimalApp × SystemsInterface) :
    Option (MinimalApp × SystemsInterface) :=
  let app := st.1
  let systems := st.2
  match app.m_meshArray.get? i with
  | none => none
  | some mesh =>
    let systems := systems.d3d (.meshBind i mesh)
    match app.m_textures.get? i with
    | none => none
    | some texture =>
      let systems := systems.d3d (.textureBind i texture .kPixel 0)
      forLoop kNumInstances (renderInstance i) 0 (app, systems)

/-- The callback `on_render`.  `hr` is the result the driver gives to the
`Map` call on the per-frame constant buffer.  The result is `none` when an
array is indexed out of range. -/
def on_render (fw : Framework) (app : MinimalApp) (systems : SystemsInterface)
    (hr : HRESULT) : Option (MinimalApp × SystemsInterface) :=
  let systems := systems.dd (.xzSquareGrid (-50) 50 0 1 .DimGray)
  let systems := systems.dd (.axisTriad m4x4.Identity (1 / 10) 15)
  let systems := systems.dd (.box app.m_position .Blue app.m_size app.m_size app.m_size)
  let systems :=
    if fw.pointInFrustum systems.pCamera app.m_position then
      systems.dd (.projectedText "A Box" app.m_position .White systems.pCamera.vpMatrix
        0 0 systems.width systems.height (1 / 2))
    else systems
  -- push per-frame data to the GPU
  let systems := systems.d3d (.Map app.m_pPerFrameCB hr)
  let systems :=
    if !FAILED hr then
      (systems.d3d (.memcpy app.m_pPerFrameCB app.m_perFrameCBData)).d3d
        (.Unmap app.m_pPerFrameCB)
    else systems
  -- bind our set of shaders
  let systems := systems.d3d (.shaderBind app.m_meshShader)
  -- bind constant buffers, to both PS and VS stages
  let buffers := [app.m_pPerFrameCB, app.m_pPerDrawCB]
  let systems := systems.d3d (.VSSetConstantBuffers 0 buffers)
  let systems := systems.d3d (.PSSetConstantBuffers 0 buffers)
  -- bind a sampler state
  let samplers := [app.m_pLinearMipSamplerState]
  let systems := systems.d3d (.PSSetSamplers 0 samplers)
  forLoop kNumModelTypes renderModel 0 (app, systems)

/-- The callback `on_resize`, empty in the source. -/
def on_resize (app : MinimalApp) (systems : SystemsInterface) :
    MinimalApp × SystemsInterface :=
  (app, systems)

/-! ## Runs of the application -/

/-- What happens after `on_init`: one of the three later callbacks, or the
host framework moving the camera and resizing the window between them. -/
inductive Callback where
  | update
  | render (hr : HRESULT)
  | resize
  | host (camera : Camera) (width height : Int)

/-- One step of a run. -/
def step (fw : Framework) (c : Callback) (st : MinimalApp × SystemsInterface) :
    Option (MinimalApp × SystemsInterface) :=
  match c with
  | .update => some (on_update fw st.1 st.2)
  | .render hr => on_render fw st.1 st.2 hr
  | .resize => some (on_resize st.1 st.2)
  | .host camera width height =>
    some (st.1, { st.2 with pCamera := camera, width := width, height := height })

/-- A sequence of callbacks, run from left to right. -/
def run (fw : Framework) (cs : List Callback) (st : MinimalApp × SystemsInterface) :
    Option (MinimalApp × SystemsInterface) :=
  match cs with
  | [] => some st
  | c :: rest =>
    match step fw c st with
    | some st1 => run fw rest st1
    | none => none

/-- Number of `on_update` calls in a sequence of callbacks. -/
def countUpdates (cs : List Callback) : Nat :=
  match cs with
  | [] => 0
  | .update :: rest => countUpdates rest + 1
  | _ :: rest => countUpdates rest

/-! ## Observations on the log of calls -/

/-- Calls that one `on_render` adds to the log of the immediate context. -/
def renderCalls (fw : Framework) (app : MinimalApp) (systems : SystemsInterface)
    (hr : HRESULT) : List D3DOp :=
  match on_render fw app systems hr with
  | some r => r.2.pD3DContext.drop systems.pD3DContext.length
  | none => []

/-- A mesh draw call. -/
def D3DOp.isDraw : D3DOp → Bool
  | .meshDraw _ _ => true
  | _ => false

/-- A push to a constant buffer through the framework helper. -/
def D3DOp.isPush : D3DOp → Bool
  | .push_constant_buffer _ _ => true
  | _ => false

/-- A `Map` call. -/
def D3DOp.isMap : D3DOp → Bool
  | .Map _ _ => true
  | _ => false

/-- An `Unmap` call. -/
def D3DOp.isUnmap : D3DOp → Bool
  | .Unmap _ => true
  | _ => false

/-- The call writes the contents of buffer `b`. -/
def D3DOp.writesTo (b : Option Handle) : D3DOp → Bool
  | .memcpy buffer _ => buffer == b
  | .push_constant_buffer buffer _ => buffer == b
  | _ => false

/-- The last write to buffer `b` in a log: what the buffer holds on the GPU
side after the log, or `none` when it was never written. -/
def bufferContents (b : Option Handle) (log : List D3DOp) : Option D3DOp :=
  (log.filter (D3DOp.writesTo b)).getLast?

/-- The array index a call was reached through, for the calls made on an
element of `m_meshArray` or `m_textures`. -/
def D3DOp.index? : D3DOp → Option Nat
  | .meshBind i _ => some i
  | .textureBind i _ _ _ => some i
  | .meshDraw i _ => some i
  | _ => none

/-- The GPU objects a call names. -/
def D3DOp.resources : D3DOp → List (Option Handle)
  | .Map b _ => [b]
  | .memcpy b _ => [b]
  | .Unmap b => [b]
  | .shaderBind s => [s.handle]
  | .VSSetConstantBuffers _ bs => bs
  | .PSSetConstantBuffers _ bs => bs
  | .PSSetSamplers _ ss => ss
  | .meshBind _ m => [m.handle]
  | .textureBind _ t _ _ => [t.handle]
  | .push_constant_buffer b _ => [b]
  | .meshDraw _ m => [m.handle]

/-- A call that binds something on the immediate context. -/
def D3DOp.isBind : D3DOp → Bool
  | .shaderBind _ => true
  | .VSSetConstantBuffers _ _ => true
  | .PSSetConstantBuffers _ _ => true
  | .PSSetSamplers _ _ => true
  | .meshBind _ _ => true
  | .textureBind _ _ _ _ => true
  | _ => false

/-- Pushes and draws come in adjacent pairs: every push is immediately
followed by a draw, and every draw immediately follows a push of its own. -/
def pushDrawPaired : List D3DOp → Bool
  | [] => true
  | .push_constant_buffer _ _ :: .meshDraw _ _ :: rest => pushDrawPaired rest
  | .push_constant_buffer _ _ :: _ => false
  | .meshDraw _ _ :: _ => false
  | _ :: rest => pushDrawPaired rest

/-- Every draw of a log together with the call issued immediately before it
(`prev` is the call before the log starts). -/
def drawsWithPrev (prev : Option D3DOp) : List D3DOp → List (Option D3DOp × D3DOp)
  | [] => []
  | op :: rest =>
    (if op.isDraw then [(prev, op)] else []) ++ drawsWithPrev (some op) rest

/-- What is bound on the immediate context: the shader set, the constant
buffers and samplers per slot, the mesh, and the pixel-stage textures per
slot.  Meshes and textures are kept with the array index they came from. -/
structure Pipeline where
  shader : Option ShaderSet
  vsConstantBuffers : Nat → Option (Option Handle)
  psConstantBuffers : Nat → Option (Option Handle)
  psSamplers : Nat → Option (Option Handle)
  mesh : Option (Nat × Mesh)
  psTextures : Nat → Option (Nat × Texture)

/-- Bind the values `vals` to consecutive slots from `start` on. -/
def setSlots {α : Type} (old : Nat → Option α) (start : Nat) (vals : List α) :
    Nat → Option α :=
  fun slot => if start ≤ slot ∧ slot < start + vals.length then vals[slot - start]? else old slot

/-- Effect of one call on what is bound. -/
def Pipeline.apply (p : Pipeline) : D3DOp → Pipeline
  | .shaderBind s => { p with shader := some s }
  | .VSSetConstantBuffers start bs =>
    { p with vsConstantBuffers := setSlots p.vsConstantBuffers start bs }
  | .PSSetConstantBuffers start bs =>
    { p with psConstantBuffers := setSlots p.psConstantBuffers start bs }
  | .PSSetSamplers start ss => { p with psSamplers := setSlots p.psSamplers start ss }
  | .meshBind i m => { p with mesh := some (i, m) }
  | .textureBind i t stage slot =>
    if stage = .kPixel then { p with psTextures := setSlots p.psTextures slot [(i, t)] } else p
  | _ => p

/-- What is bound at the moment of each draw of a log, with the index and the
mesh drawn. -/
def drawSnapshots (p : Pipeline) : List D3DOp → List (Pipeline × Nat × Mesh)
  | [] => []
  | .meshDraw i m :: rest => (p, i, m) :: drawSnapshots p rest
  | op :: rest => drawSnapshots (p.apply op) rest

/-- The GPU objects that `on_init` added to the device. -/
def createdByInit (fw : Framework) (app : MinimalApp) (systems : SystemsInterface) :
    List (Handle × ResourceDesc) :=
  (on_init fw app systems).2.pD3DDevice.created.drop systems.pD3DDevice.created.length

/-! ## The calls expected from one `on_render` -/

/-- The matrix held by the per-draw block for instance `j` of model `i`. -/
def instanceMVP (camera : Camera) (i j : Nat) : m4x4 :=
  m4x4.Transpose
    (m4x4.CreateTranslation ⟨(j : ℚ) * (3 / 2), (i : ℚ) * (3 / 2), 0⟩ * camera.vpMatrix)

/-- The push and the draw of instance `j` of model `i`. -/
def pairCalls (app : MinimalApp) (camera : Camera) (i j : Nat) (mesh : Mesh) : List D3DOp :=
  [.push_constant_buffer app.m_pPerDrawCB ⟨instanceMVP camera i j⟩, .meshDraw i mesh]

/-- The binds of model `i` followed by its five instances. -/
def modelCalls (app : MinimalApp) (camera : Camera) (i : Nat) (mesh : Mesh)
    (texture : Texture) : List D3DOp :=
  [.meshBind i mesh, .textureBind i texture .kPixel 0]
    ++ pairCalls app camera i 0 mesh ++ pairCalls app camera i 1 mesh
    ++ pairCalls app camera i 2 mesh ++ pairCalls app camera i 3 mesh
    ++ pairCalls app camera i 4 mesh

/-- The calls that move the per-frame block to the GPU. -/
def frameCalls (app : MinimalApp) (hr : HRESULT) : List D3DOp :=
  .Map app.m_pPerFrameCB hr ::
    (if FAILED hr then []
     else [.memcpy app.m_pPerFrameCB app.m_perFrameCBData, .Unmap app.m_pPerFrameCB])

/-- The binds made once per frame. -/
def bindCalls (app : MinimalApp) : List D3DOp :=
  [.shaderBind app.m_meshShader,
   .VSSetConstantBuffers 0 [app.m_pPerFrameCB, app.m_pPerDrawCB],
   .PSSetConstantBuffers 0 [app.m_pPerFrameCB, app.m_pPerDrawCB],
   .PSSetSamplers 0 [app.m_pLinearMipSamplerState]]

/-- The calls after the per-frame block was handled: the binds and the two
models. -/
def sceneCalls (app : MinimalApp) (camera : Camera) : List D3DOp :=
  bindCalls app
    ++ modelCalls app camera 0 app.m_meshArray.e0 app.m_textures.e0
    ++ modelCalls app camera 1 app.m_meshArray.e1 app.m_textures.e1

/-- The debug-draw calls of one `on_render`. -/
def debugCalls (fw : Framework) (app : MinimalApp) (systems : SystemsInterface) :
    List DDOp :=
  [.xzSquareGrid (-50) 50 0 1 .DimGray,
   .axisTriad m4x4.Identity (1 / 10) 15,
   .box app.m_position .Blue app.m_size app.m_size app.m_size]
    ++ (if fw.pointInFrustum systems.pCamera app.m_position then
          [.projectedText "A Box" app.m_position .White systems.pCamera.vpMatrix
            0 0 systems.width systems.height (1 / 2)]
        else [])

/-- The GPU objects the application holds: the shader set, the two constant
buffers, the meshes, the textures and the sampler. -/
def MinimalApp.gpuObjects (a : MinimalApp) :
    ShaderSet × Option Handle × Option Handle × Array2 Mesh × Array2 Texture × Option Handle :=
  (a.m_meshShader, a.m_pPerFrameCB, a.m_pPerDrawCB, a.m_meshArray, a.m_textures,
    a.m_pLinearMipSamplerState)

/-! ## A concrete start state -/

/-- The zero matrix. -/
def m4x4.zero : m4x4 := ⟨0⟩

/-- A framework whose camera ignores `look_at`, sees every point, and whose
sliders leave their value alone. -/
def sampleFramework : Framework where
  look_at := fun c _ => c
  pointInFrustum := fun _ _ => true
  SliderFloat3 := fun _ v _ _ => v
  SliderFloat := fun _ v _ _ => v

/-- An application object before `on_init`: null pointers everywhere. -/
def sampleApp : MinimalApp where
  m_perFrameCBData := ⟨m4x4.zero, m4x4.zero, 7, fun _ => 0⟩
  m_pPerFrameCB := none
  m_perDrawCBData := ⟨m4x4.zero⟩
  m_pPerDrawCB := none
  m_meshShader := ⟨none⟩
  m_meshArray := ⟨⟨none⟩, ⟨none⟩⟩
  m_textures := ⟨⟨none⟩, ⟨none⟩⟩
  m_pLinearMipSamplerState := none
  m_position := ⟨0, 0, 0⟩
  m_size := 0

/-- A fresh device with empty logs and an identity camera. -/
def sampleSystems : SystemsInterface where
  pD3DDevice := ⟨0, []⟩
  pD3DContext := []
  pDebugDrawContext := []
  pCamera := ⟨⟨0, 0, 0⟩, m4x4.Identity, m4x4.Identity, m4x4.Identity⟩
  width := 1280
  height := 720

/-- The application object right after `on_init` on the concrete start
state. -/
def startedApp : MinimalApp := (on_init sampleFramework sampleApp sampleSystems).1

/-- The systems right after `on_init` on the concrete start state. -/
def startedSystems : SystemsInterface := (on_init sampleFramework sampleApp sampleSystems).2

/-- The result `E_FAIL` of the Windows headers, as a signed 32-bit value. -/
def E_FAIL : HRESULT := -2147467259

/-- The result `S_OK` of the Windows headers. -/
def S_OK : HRESULT := 0

/-! ## The loops of `on_render` -/

/-- One more turn of the loop while the counter is below the bound. -/
theorem forLoop_lt {σ : Type} (bound : Nat) (body : Nat → σ → Option σ) (i : Nat) (s : σ)
    (h : i < bound) :
    forLoop bound body i s = (body i s).bind (forLoop bound body (i + 1)) := by
  rw [forLoop, if_pos h]
  cases body i s <;> rfl

/-- The loop stops, leaving the state alone, once the counter reaches the bound. -/
theorem forLoop_ge {σ : Type} (bound : Nat) (body : Nat → σ → Option σ) (i : Nat) (s : σ)
    (h : bound ≤ i) : forLoop bound body i s = some s := by
  rw [forLoop, if_neg (Nat.not_lt.mpr h)]

/-! ## What one `on_render` does -/

/-- The result of `on_render` in closed form: it always returns, leaves the
application alone but for the per-draw block, and appends the expected calls
to the two logs. -/
theorem on_render_eq (fw : Framework) (app : MinimalApp) (systems : SystemsInterface)
    (hr : HRESULT) :
    on_render fw app systems hr =
      some ({ app with m_perDrawCBData := ⟨instanceMVP systems.pCamera 1 4⟩ },
        { systems with
          pD3DContext := systems.pD3DContext ++ (frameCalls app hr ++ sceneCalls app systems.pCamera)
          pDebugDrawContext := systems.pDebugDrawContext ++ debugCalls fw app systems }) := by
  cases hf : FAILED hr <;> cases hp : fw.pointInFrustum systems.pCamera app.m_position <;>
    simp [on_render, kNumModelTypes, renderModel, kNumInstances, forLoop_lt, forLoop_ge,
      renderInstance, Array2.get?, SystemsInterface.d3d, SystemsInterface.dd, hf, hp,
      frameCalls, sceneCalls, bindCalls, modelCalls, pairCalls, debugCalls, instanceMVP,
      kGridSpacing]

/-- The calls of one `on_render` in closed form. -/
theorem renderCalls_eq (fw : Framework) (app : MinimalApp) (systems : SystemsInterface)
    (hr : HRESULT) :
    renderCalls fw app systems hr = frameCalls app hr ++ sceneCalls app systems.pCamera := by
  simp [renderCalls, on_render_eq]

/-! ## Matrices -/

/-- Transposing twice gives the matrix back. -/
theorem Transpose_Transpose (a : m4x4) : a.Transpose.Transpose = a := by
  cases a
  simp [m4x4.Transpose]

/-- A translation matrix moves the point `p` to `p + t`. -/
theorem CreateTranslation_vecMul (p t : v3) :
    Matrix.vecMul p.toRow (m4x4.CreateTranslation t).m = (p.add t).toRow := by
  funext c
  fin_cases c <;>
    simp [Matrix.vecMul, Matrix.dotProduct, Fin.sum_univ_four, m4x4.CreateTranslation,
      v3.toRow, v3.add]

/-! ## The claims -/

/-- Claim C1: one `on_render` returns and issues exactly ten mesh draws
(`kNumModelTypes * kNumInstances`), five of `m_meshArray[0]` followed by five
of `m_meshArray[1]`; the number and the order of the draws are the same for
every framework, application state, camera and result of `Map`. -/
theorem C1_render_issues_ten_draws (fw : Framework) (app : MinimalApp)
    (systems : SystemsInterface) (hr : HRESULT) :
    (on_render fw app systems hr).isSome = true ∧
    (renderCalls fw app systems hr).filter D3DOp.isDraw =
      List.replicate 5 (D3DOp.meshDraw 0 app.m_meshArray.e0)
        ++ List.replicate 5 (D3DOp.meshDraw 1 app.m_meshArray.e1) ∧
    ((renderCalls fw app systems hr).filter D3DOp.isDraw).length
      = kNumModelTypes * kNumInstances ∧
    kNumModelTypes * kNumInstances = 10 ∧
    app.m_meshArray.get? 0 = some app.m_meshArray.e0 ∧
    app.m_meshArray.get? 1 = some app.m_meshArray.e1 ∧
    ∀ (fw2 : Framework) (app2 : MinimalApp) (systems2 : SystemsInterface) (hr2 : HRESULT),
      ((renderCalls fw2 app2 systems2 hr2).filter D3DOp.isDraw).map D3DOp.index?
        = ((renderCalls fw app systems hr).filter D3DOp.isDraw).map D3DOp.index? := by
  refine ⟨by simp [on_render_eq], ?_, ?_, by decide, rfl, rfl, ?_⟩
  · cases hf : FAILED hr <;>
      simp [renderCalls_eq, frameCalls, sceneCalls, bindCalls, modelCalls, pairCalls,
        D3DOp.isDraw, hf, List.replicate]
  · cases hf : FAILED hr <;>
      simp [renderCalls_eq, frameCalls, sceneCalls, bindCalls, modelCalls, pairCalls,
        D3DOp.isDraw, hf, kNumModelTypes, kNumInstances]
  · intro fw2 app2 systems2 hr2
    cases hf : FAILED hr <;> cases hf2 : FAILED hr2 <;>
      simp [renderCalls_eq, frameCalls, sceneCalls, bindCalls, modelCalls, pairCalls,
        D3DOp.isDraw, hf, hf2, D3DOp.index?]

/-- Claim C3: in the calls of one `on_render`, pushes to the per-draw constant
buffer and mesh draws strictly alternate, starting with a push: every draw
immediately follows a push of its own, every push is immediately followed by
a draw, every push goes to `m_pPerDrawCB`, and there are ten of each. -/
theorem C3_push_draw_alternate (fw : Framework) (app : MinimalApp)
    (systems : SystemsInterface) (hr : HRESULT) :
    pushDrawPaired (renderCalls fw app systems hr) = true ∧
    ((renderCalls fw app systems hr).filter (fun op => op.isPush || op.isDraw)).map D3DOp.isPush
      = [true, false, true, false, true, false, true, false, true, false,
         true, false, true, false, true, false, true, false, true, false] ∧
    ((renderCalls fw app systems hr).filter D3DOp.isPush).length = 10 ∧
    ((renderCalls fw app systems hr).filter D3DOp.isDraw).length = 10 ∧
    (∀ op ∈ renderCalls fw app systems hr, op.isPush = true →
      ∃ data, op = D3DOp.push_constant_buffer app.m_pPerDrawCB data) := by
  cases hf : FAILED hr <;>
    simp [renderCalls_eq, frameCalls, sceneCalls, bindCalls, modelCalls, pairCalls,
      D3DOp.isDraw, D3DOp.isPush, hf, pushDrawPaired]

/-- Claim C5: for model `i < 2` and instance `j < 5`, the draw number
`5 * i + j` of one `on_render` is a draw of `m_meshArray[i]`, and the call
immediately before it pushes to the per-draw buffer the matrix
`Transpose (CreateTranslation (1.5 * j, 1.5 * i, 0) * vpMatrix)`, with the
camera's view-projection matrix at the time of the call; that model matrix
moves every point by `(1.5 * j, 1.5 * i, 0)`. -/
theorem C5_pushed_matrix_is_mvp (fw : Framework) (app : MinimalApp)
    (systems : SystemsInterface) (hr : HRESULT) (i j : Nat) (hi : i < 2) (hj : j < 5) :
    ∃ mesh, app.m_meshArray.get? i = some mesh ∧
      (drawsWithPrev none (renderCalls fw app systems hr))[5 * i + j]? =
        some (some (D3DOp.push_constant_buffer app.m_pPerDrawCB
            ⟨m4x4.Transpose (m4x4.CreateTranslation ⟨3 / 2 * (j : ℚ), 3 / 2 * (i : ℚ), 0⟩
              * systems.pCamera.vpMatrix)⟩),
          D3DOp.meshDraw i mesh) ∧
      ∀ p : v3,
        Matrix.vecMul p.toRow (m4x4.CreateTranslation ⟨3 / 2 * (j : ℚ), 3 / 2 * (i : ℚ), 0⟩).m
          = (p.add ⟨3 / 2 * (j : ℚ), 3 / 2 * (i : ℚ), 0⟩).toRow := by
  have hget : ∃ mesh, app.m_meshArray.get? i = some mesh := by
    interval_cases i <;> simp [Array2.get?]
  obtain ⟨mesh, hmesh⟩ := hget
  refine ⟨mesh, hmesh, ?_, fun p => CreateTranslation_vecMul p _⟩
  cases hf : FAILED hr <;> interval_cases i <;> interval_cases j <;>
    simp [Array2.get?] at hmesh <;> subst hmesh <;>
    simp [renderCalls_eq, frameCalls, sceneCalls, bindCalls, modelCalls, pairCalls,
      D3DOp.isDraw, hf, drawsWithPrev, instanceMVP] <;> norm_num

/-- Witness of C5 at the second instance of the second model. -/
theorem C5_pushed_matrix_is_mvp_witness :
    ∃ mesh, sampleApp.m_meshArray.get? 1 = some mesh ∧
      (drawsWithPrev none (renderCalls sampleFramework sampleApp sampleSystems 0))[5 * 1 + 1]? =
        some (some (D3DOp.push_constant_buffer sampleApp.m_pPerDrawCB
            ⟨m4x4.Transpose (m4x4.CreateTranslation ⟨3 / 2 * ((1 : Nat) : ℚ), 3 / 2 * ((1 : Nat) : ℚ), 0⟩
              * sampleSystems.pCamera.vpMatrix)⟩),
          D3DOp.meshDraw 1 mesh) ∧
      ∀ p : v3,
        Matrix.vecMul p.toRow
            (m4x4.CreateTranslation ⟨3 / 2 * ((1 : Nat) : ℚ), 3 / 2 * ((1 : Nat) : ℚ), 0⟩).m
          = (p.add ⟨3 / 2 * ((1 : Nat) : ℚ), 3 / 2 * ((1 : Nat) : ℚ), 0⟩).toRow :=
  C5_pushed_matrix_is_mvp sampleFramework sampleApp sampleSystems 0 1 1 (by decide) (by decide)

/-- Claim C10: every index through which one `on_render` reaches
`m_meshArray` or `m_textures` is below 2, the declared length of both, so the
checked accesses all succeed and `on_render` returns; the outer loop runs its
body for `i = 0, 1` and the inner loop for `j = 0, ..., 4`, then they stop. -/
theorem C10_indices_in_bounds (fw : Framework) (app : MinimalApp)
    (systems : SystemsInterface) (hr : HRESULT) :
    (on_render fw app systems hr).isSome = true ∧
    (∀ op ∈ renderCalls fw app systems hr, ∀ k, op.index? = some k →
      k < app.m_meshArray.size ∧ k < app.m_textures.size ∧ k < 2 ∧
      (app.m_meshArray.get? k).isSome = true ∧ (app.m_textures.get? k).isSome = true) ∧
    (renderCalls fw app systems hr).filterMap D3DOp.index?
      = [0, 0, 0, 0, 0, 0, 0, 1, 1, 1, 1, 1, 1, 1] ∧
    (∀ k, 2 ≤ k → app.m_meshArray.get? k = none ∧ app.m_textures.get? k = none) ∧
    (∀ st : MinimalApp × SystemsInterface,
      forLoop kNumModelTypes renderModel 0 st = (renderModel 0 st).bind (renderModel 1)) ∧
    (∀ (i : Nat) (st : MinimalApp × SystemsInterface),
      forLoop kNumInstances (renderInstance i) 0 st =
        ((((renderInstance i 0 st).bind (renderInstance i 1)).bind (renderInstance i 2)).bind
          (renderInstance i 3)).bind (renderInstance i 4)) := by
  refine ⟨by simp [on_render_eq], ?_, ?_, ?_, ?_, ?_⟩
  · cases hf : FAILED hr <;>
      simp [renderCalls_eq, frameCalls, sceneCalls, bindCalls, modelCalls, pairCalls, hf,
        D3DOp.index?, Array2.size, Array2.get?]
  · cases hf : FAILED hr <;>
      simp [renderCalls_eq, frameCalls, sceneCalls, bindCalls, modelCalls, pairCalls, hf,
        D3DOp.index?]
  · intro k hk
    obtain ⟨n, rfl⟩ : ∃ n, k = n + 2 := ⟨k - 2, by omega⟩
    simp [Array2.get?]
  · intro st
    simp [kNumModelTypes, forLoop_lt, forLoop_ge]
  · intro i st
    simp [kNumInstances, forLoop_lt, forLoop_ge, Option.bind_assoc]

/-! ## Runs -/

/-- One `on_update` adds 0.001 to the time accumulator. -/
theorem on_update_time (fw : Framework) (app : MinimalApp) (systems : SystemsInterface) :
    (on_update fw app systems).1.m_perFrameCBData.m_time
      = app.m_perFrameCBData.m_time + 1 / 1000 := by
  simp [on_update]

/-- Every callback returns, keeps the device and the GPU objects of the
application, and advances the time only when it is `on_update`. -/
theorem step_keeps (fw : Framework) (c : Callback) (st : MinimalApp × SystemsInterface) :
    ∃ r, step fw c st = some r ∧ r.2.pD3DDevice = st.2.pD3DDevice ∧
      r.1.gpuObjects = st.1.gpuObjects ∧
      r.1.m_perFrameCBData.m_time
        = st.1.m_perFrameCBData.m_time + (countUpdates [c] : ℚ) * (1 / 1000) := by
  cases c with
  | update => exact ⟨_, rfl, by simp [on_update, SystemsInterface.dd], by
      simp [on_update, MinimalApp.gpuObjects], by simp [on_update, countUpdates]⟩
  | render hr => exact ⟨_, on_render_eq fw st.1 st.2 hr, by simp, by
      simp [MinimalApp.gpuObjects], by simp [countUpdates]⟩
  | resize => exact ⟨_, rfl, by simp [on_resize], by simp [on_resize], by
      simp [on_resize, countUpdates]⟩
  | host camera width height => exact ⟨_, rfl, by simp, by simp, by simp [countUpdates]⟩

/-- Counting updates splits over the first callback and the rest. -/
theorem countUpdates_cons (c : Callback) (cs : List Callback) :
    countUpdates (c :: cs) = countUpdates [c] + countUpdates cs := by
  cases c <;> simp [countUpdates, Nat.add_comm]

/-- Every run returns, keeps the device and the GPU objects of the
application, and advances the time by 0.001 per `on_update`. -/
theorem run_keeps (fw : Framework) (cs : List Callback) :
    ∀ st : MinimalApp × SystemsInterface,
      ∃ r, run fw cs st = some r ∧ r.2.pD3DDevice = st.2.pD3DDevice ∧
        r.1.gpuObjects = st.1.gpuObjects ∧
        r.1.m_perFrameCBData.m_time
          = st.1.m_perFrameCBData.m_time + (countUpdates cs : ℚ) * (1 / 1000) := by
  induction cs with
  | nil => intro st; exact ⟨st, rfl, rfl, rfl, by simp [countUpdates]⟩
  | cons c cs ih =>
    intro st
    obtain ⟨r1, h1, hd1, hg1, ht1⟩ := step_keeps fw c st
    obtain ⟨r, h, hd, hg, ht⟩ := ih r1
    refine ⟨r, by simp [run, h1, h], hd.trans hd1, hg.trans hg1, ?_⟩
    rw [countUpdates_cons c cs, ht, ht1]
    push_cast
    ring

/-- Claim C6: `on_init` sets the time accumulator to 0, every `on_update`
adds exactly 0.001 to it, `on_render` and `on_resize` leave it as it is, and
after `on_init` followed by any sequence of callbacks with `n` calls of
`on_update` it equals `n * 0.001`, in exact arithmetic. -/
theorem C6_time_advances_only_on_update (fw : Framework) (app : MinimalApp)
    (systems : SystemsInterface) :
    (on_init fw app systems).1.m_perFrameCBData.m_time = 0 ∧
    (∀ (a : MinimalApp) (s : SystemsInterface),
      (on_update fw a s).1.m_perFrameCBData.m_time = a.m_perFrameCBData.m_time + 1 / 1000) ∧
    (∀ (a : MinimalApp) (s : SystemsInterface) (hr : HRESULT),
      ∃ r, on_render fw a s hr = some r ∧
        r.1.m_perFrameCBData.m_time = a.m_perFrameCBData.m_time) ∧
    (∀ (a : MinimalApp) (s : SystemsInterface),
      (on_resize a s).1.m_perFrameCBData.m_time = a.m_perFrameCBData.m_time) ∧
    (∀ cs : List Callback,
      ∃ r, run fw cs (on_init fw app systems) = some r ∧
        r.1.m_perFrameCBData.m_time = (countUpdates cs : ℚ) * (1 / 1000)) := by
  refine ⟨by simp [on_init], fun a s => on_update_time fw a s, ?_, fun a s => rfl, ?_⟩
  · intro a s hr
    exact ⟨_, on_render_eq fw a s hr, rfl⟩
  · intro cs
    obtain ⟨r, h, -, -, ht⟩ := run_keeps fw cs (on_init fw app systems)
    refine ⟨r, h, ?_⟩
    rw [ht]
    simp [on_init]

/-- Claim C7: after `on_update` the stored projection and view matrices are
the transposes of the camera's projection and view matrices, whatever was
stored before, and transposing the stored matrices gives the camera's
matrices back; the camera itself is not changed by `on_update`. -/
theorem C7_update_refreshes_camera_matrices (fw : Framework) (app : MinimalApp)
    (systems : SystemsInterface) :
    (on_update fw app systems).1.m_perFrameCBData.m_matProjection
      = m4x4.Transpose systems.pCamera.projMatrix ∧
    (on_update fw app systems).1.m_perFrameCBData.m_matView
      = m4x4.Transpose systems.pCamera.viewMatrix ∧
    m4x4.Transpose (on_update fw app systems).1.m_perFrameCBData.m_matProjection
      = systems.pCamera.projMatrix ∧
    m4x4.Transpose (on_update fw app systems).1.m_perFrameCBData.m_matView
      = systems.pCamera.viewMatrix ∧
    (on_update fw app systems).2.pCamera = systems.pCamera ∧
    (∀ app2 : MinimalApp,
      (on_update fw app2 systems).1.m_perFrameCBData.m_matProjection
        = (on_update fw app systems).1.m_perFrameCBData.m_matProjection ∧
      (on_update fw app2 systems).1.m_perFrameCBData.m_matView
        = (on_update fw app systems).1.m_perFrameCBData.m_matView) := by
  simp [on_update, SystemsInterface.dd, Transpose_Transpose]

/-- The eight objects `on_init` creates, in order of creation. -/
theorem createdByInit_eq (fw : Framework) (app : MinimalApp) (systems : SystemsInterface) :
    createdByInit fw app systems =
      [(systems.pD3DDevice.nextHandle,
          ResourceDesc.shaderSet "Assets/Shaders/MinimalShaders.fx" "VS_Mesh" "PS_Mesh"),
       (systems.pD3DDevice.nextHandle + 1, ResourceDesc.constantBuffer "PerFrameCBData"),
       (systems.pD3DDevice.nextHandle + 2, ResourceDesc.constantBuffer "PerDrawCBData"),
       (systems.pD3DDevice.nextHandle + 3, ResourceDesc.meshCube (1 / 2)),
       (systems.pD3DDevice.nextHandle + 4,
          ResourceDesc.meshObj "Assets/Models/apple.obj" (1 / 100)),
       (systems.pD3DDevice.nextHandle + 5, ResourceDesc.textureDds "Assets/Textures/brick.dds"),
       (systems.pD3DDevice.nextHandle + 6,
          ResourceDesc.textureDds "Assets/Textures/apple_diffuse.dds"),
       (systems.pD3DDevice.nextHandle + 7, ResourceDesc.sampler "D3D11_TEXTURE_ADDRESS_WRAP")] := by
  simp [createdByInit, on_init, SystemsInterface.create, Device.create]

/-- `on_init` only adds to the objects of the device. -/
theorem on_init_created (fw : Framework) (app : MinimalApp) (systems : SystemsInterface) :
    (on_init fw app systems).2.pD3DDevice.created
      = systems.pD3DDevice.created ++ createdByInit fw app systems := by
  simp [createdByInit, on_init, SystemsInterface.create, Device.create]

/-- After `on_init` the application holds the eight objects it created. -/
theorem on_init_gpuObjects (fw : Framework) (app : MinimalApp) (systems : SystemsInterface) :
    (on_init fw app systems).1.gpuObjects =
      (⟨some systems.pD3DDevice.nextHandle⟩,
        some (systems.pD3DDevice.nextHandle + 1),
        some (systems.pD3DDevice.nextHandle + 2),
        ⟨⟨some (systems.pD3DDevice.nextHandle + 3)⟩, ⟨some (systems.pD3DDevice.nextHandle + 4)⟩⟩,
        ⟨⟨some (systems.pD3DDevice.nextHandle + 5)⟩, ⟨some (systems.pD3DDevice.nextHandle + 6)⟩⟩,
        some (systems.pD3DDevice.nextHandle + 7)) := by
  simp [MinimalApp.gpuObjects, on_init, SystemsInterface.create, Device.create, Array2.set]

/-- Claim C8: `on_init` creates eight GPU objects (the shader set, the
per-frame and per-draw constant buffers, meshes 0 and 1, textures 0 and 1,
the sampler); after `on_init` followed by any sequence of callbacks the device
holds the same objects as right after `on_init`, no single later callback
changes the device, and every object that a following `on_render` names in a
call is one of the eight created by `on_init`. -/
theorem C8_resources_created_by_init (fw : Framework) (app : MinimalApp)
    (systems : SystemsInterface) (cs : List Callback) :
    createdByInit fw app systems =
      [(systems.pD3DDevice.nextHandle,
          ResourceDesc.shaderSet "Assets/Shaders/MinimalShaders.fx" "VS_Mesh" "PS_Mesh"),
       (systems.pD3DDevice.nextHandle + 1, ResourceDesc.constantBuffer "PerFrameCBData"),
       (systems.pD3DDevice.nextHandle + 2, ResourceDesc.constantBuffer "PerDrawCBData"),
       (systems.pD3DDevice.nextHandle + 3, ResourceDesc.meshCube (1 / 2)),
       (systems.pD3DDevice.nextHandle + 4,
          ResourceDesc.meshObj "Assets/Models/apple.obj" (1 / 100)),
       (systems.pD3DDevice.nextHandle + 5, ResourceDesc.textureDds "Assets/Textures/brick.dds"),
       (systems.pD3DDevice.nextHandle + 6,
          ResourceDesc.textureDds "Assets/Textures/apple_diffuse.dds"),
       (systems.pD3DDevice.nextHandle + 7, ResourceDesc.sampler "D3D11_TEXTURE_ADDRESS_WRAP")] ∧
    (on_init fw app systems).2.pD3DDevice.created
      = systems.pD3DDevice.created ++ createdByInit fw app systems ∧
    (on_init fw app systems).1.gpuObjects =
      (⟨some systems.pD3DDevice.nextHandle⟩,
        some (systems.pD3DDevice.nextHandle + 1),
        some (systems.pD3DDevice.nextHandle + 2),
        ⟨⟨some (systems.pD3DDevice.nextHandle + 3)⟩, ⟨some (systems.pD3DDevice.nextHandle + 4)⟩⟩,
        ⟨⟨some (systems.pD3DDevice.nextHandle + 5)⟩, ⟨some (systems.pD3DDevice.nextHandle + 6)⟩⟩,
        some (systems.pD3DDevice.nextHandle + 7)) ∧
    (∀ (c : Callback) (st : MinimalApp × SystemsInterface),
      ∃ r, step fw c st = some r ∧ r.2.pD3DDevice = st.2.pD3DDevice ∧
        r.1.gpuObjects = st.1.gpuObjects) ∧
    ∃ r, run fw cs (on_init fw app systems) = some r ∧
      r.2.pD3DDevice = (on_init fw app systems).2.pD3DDevice ∧
      r.1.gpuObjects = (on_init fw app systems).1.gpuObjects ∧
      ∀ (hr : HRESULT), ∀ op ∈ renderCalls fw r.1 r.2 hr, ∀ h ∈ op.resources,
        h ∈ (createdByInit fw app systems).map (fun e => some e.1) := by
  refine ⟨createdByInit_eq fw app systems, on_init_created fw app systems,
    on_init_gpuObjects fw app systems, ?_, ?_⟩
  · intro c st
    obtain ⟨r, h, hd, hg, -⟩ := step_keeps fw c st
    exact ⟨r, h, hd, hg⟩
  · obtain ⟨r, h, hd, hg, -⟩ := run_keeps fw cs (on_init fw app systems)
    refine ⟨r, h, hd, hg, ?_⟩
    intro hr
    rw [on_init_gpuObjects] at hg
    simp only [MinimalApp.gpuObjects, Prod.mk.injEq] at hg
    obtain ⟨h1, h2, h3, h4, h5, h6⟩ := hg
    cases hf : FAILED hr <;>
      simp [renderCalls_eq, frameCalls, sceneCalls, bindCalls, modelCalls, pairCalls, hf,
        D3DOp.resources, createdByInit_eq, h1, h2, h3, h4, h5, h6]

/-- Claim C2: when the result of `Map` is a failure, and the two constant
buffers are different objects, `on_render` still returns; none of its calls
writes the per-frame buffer and none is an `Unmap`, so the buffer holds after
the call what it held before; `Map` is called once, as the first call; the
calls after it are exactly the calls that follow `Map`, the copy and `Unmap`
in a run where `Map` succeeds; and the application state, the debug-draw log
and the device end up the same as in that run. -/
theorem C2_failed_map_skips_write (fw : Framework) (app : MinimalApp)
    (systems : SystemsInterface) (hr hrOk : HRESULT)
    (hfail : FAILED hr = true) (hok : FAILED hrOk = false)
    (hdistinct : app.m_pPerFrameCB ≠ app.m_pPerDrawCB) :
    ∃ r rOk, on_render fw app systems hr = some r ∧
      on_render fw app systems hrOk = some rOk ∧
      (renderCalls fw app systems hr).filter (D3DOp.writesTo app.m_pPerFrameCB) = [] ∧
      (renderCalls fw app systems hr).filter D3DOp.isUnmap = [] ∧
      bufferContents app.m_pPerFrameCB r.2.pD3DContext
        = bufferContents app.m_pPerFrameCB systems.pD3DContext ∧
      (renderCalls fw app systems hr).take 1 = [D3DOp.Map app.m_pPerFrameCB hr] ∧
      (renderCalls fw app systems hr).filter D3DOp.isMap = [D3DOp.Map app.m_pPerFrameCB hr] ∧
      (renderCalls fw app systems hrOk).take 3 =
        [D3DOp.Map app.m_pPerFrameCB hrOk,
         D3DOp.memcpy app.m_pPerFrameCB app.m_perFrameCBData,
         D3DOp.Unmap app.m_pPerFrameCB] ∧
      (renderCalls fw app systems hr).drop 1 = (renderCalls fw app systems hrOk).drop 3 ∧
      r.1 = rOk.1 ∧
      r.2.pDebugDrawContext = rOk.2.pDebugDrawContext ∧
      r.2.pD3DDevice = rOk.2.pD3DDevice ∧
      r.2.pD3DDevice = systems.pD3DDevice := by
  have hne : (app.m_pPerDrawCB == app.m_pPerFrameCB) = false := by
    simpa using Ne.symm hdistinct
  refine ⟨_, _, on_render_eq fw app systems hr, on_render_eq fw app systems hrOk, ?_⟩
  simp [renderCalls_eq, frameCalls, sceneCalls, bindCalls, modelCalls, pairCalls, hfail, hok,
    D3DOp.writesTo, D3DOp.isUnmap, D3DOp.isMap, bufferContents, hne]

/-- Witness of C2 on the state reached by `on_init` from the concrete start
state, with `E_FAIL` as the failing result and `S_OK` as the succeeding one. -/
theorem C2_failed_map_skips_write_witness :
    FAILED E_FAIL = true ∧ FAILED S_OK = false ∧
    startedApp.m_pPerFrameCB ≠ startedApp.m_pPerDrawCB ∧
    ∃ r rOk, on_render sampleFramework startedApp startedSystems E_FAIL = some r ∧
      on_render sampleFramework startedApp startedSystems S_OK = some rOk ∧
      (renderCalls sampleFramework startedApp startedSystems E_FAIL).filter
        (D3DOp.writesTo startedApp.m_pPerFrameCB) = [] ∧
      (renderCalls sampleFramework startedApp startedSystems E_FAIL).filter D3DOp.isUnmap = [] ∧
      bufferContents startedApp.m_pPerFrameCB r.2.pD3DContext
        = bufferContents startedApp.m_pPerFrameCB startedSystems.pD3DContext ∧
      (renderCalls sampleFramework startedApp startedSystems E_FAIL).take 1
        = [D3DOp.Map startedApp.m_pPerFrameCB E_FAIL] ∧
      (renderCalls sampleFramework startedApp startedSystems E_FAIL).filter D3DOp.isMap
        = [D3DOp.Map startedApp.m_pPerFrameCB E_FAIL] ∧
      (renderCalls sampleFramework startedApp startedSystems S_OK).take 3 =
        [D3DOp.Map startedApp.m_pPerFrameCB S_OK,
         D3DOp.memcpy startedApp.m_pPerFrameCB startedApp.m_perFrameCBData,
         D3DOp.Unmap startedApp.m_pPerFrameCB] ∧
      (renderCalls sampleFramework startedApp startedSystems E_FAIL).drop 1
        = (renderCalls sampleFramework startedApp startedSystems S_OK).drop 3 ∧
      r.1 = rOk.1 ∧
      r.2.pDebugDrawContext = rOk.2.pDebugDrawContext ∧
      r.2.pD3DDevice = rOk.2.pD3DDevice ∧
      r.2.pD3DDevice = startedSystems.pD3DDevice :=
  ⟨by decide, by decide, by decide,
    C2_failed_map_skips_write sampleFramework startedApp startedSystems E_FAIL S_OK
      (by decide) (by decide) (by decide)⟩

/-- Claim C4: when the two constant buffers are different objects, one
`on_render` writes the per-frame buffer at most once; when `Map` succeeds it
writes it exactly once, the value written is the whole `m_perFrameCBData`
held at the call (projection, view, time and padding), the write comes right
after `Map` and right before the only `Unmap`, and all ten draws come after
these three calls. -/
theorem C4_per_frame_block_written_once (fw : Framework) (app : MinimalApp)
    (systems : SystemsInterface) (hr : HRESULT)
    (hdistinct : app.m_pPerFrameCB ≠ app.m_pPerDrawCB) :
    ((renderCalls fw app systems hr).filter (D3DOp.writesTo app.m_pPerFrameCB)).length ≤ 1 ∧
    (FAILED hr = false →
      (renderCalls fw app systems hr).filter (D3DOp.writesTo app.m_pPerFrameCB)
        = [D3DOp.memcpy app.m_pPerFrameCB
            ⟨app.m_perFrameCBData.m_matProjection, app.m_perFrameCBData.m_matView,
              app.m_perFrameCBData.m_time, app.m_perFrameCBData.m_padding⟩] ∧
      (renderCalls fw app systems hr).filter D3DOp.isUnmap = [D3DOp.Unmap app.m_pPerFrameCB] ∧
      (renderCalls fw app systems hr).take 3 =
        [D3DOp.Map app.m_pPerFrameCB hr,
         D3DOp.memcpy app.m_pPerFrameCB app.m_perFrameCBData,
         D3DOp.Unmap app.m_pPerFrameCB] ∧
      ((renderCalls fw app systems hr).take 3).filter D3DOp.isDraw = [] ∧
      (((renderCalls fw app systems hr).drop 3).filter D3DOp.isDraw).length = 10 ∧
      (renderCalls fw app systems hr).findIdx (D3DOp.writesTo app.m_pPerFrameCB)
        < (renderCalls fw app systems hr).findIdx D3DOp.isDraw) := by
  have hne : (app.m_pPerDrawCB == app.m_pPerFrameCB) = false := by
    simpa using Ne.symm hdistinct
  constructor
  · cases hf : FAILED hr <;>
      simp [renderCalls_eq, frameCalls, sceneCalls, bindCalls, modelCalls, pairCalls, hf,
        D3DOp.writesTo, hne]
  · intro hf
    simp [renderCalls_eq, frameCalls, sceneCalls, bindCalls, modelCalls, pairCalls, hf,
      D3DOp.writesTo, D3DOp.isUnmap, D3DOp.isDraw, hne, List.findIdx_cons]

/-- Witness of C4 on the state reached by `on_init` from the concrete start
state, with `S_OK` as the result of `Map`. -/
theorem C4_per_frame_block_written_once_witness :
    startedApp.m_pPerFrameCB ≠ startedApp.m_pPerDrawCB ∧
    FAILED S_OK = false ∧
    (renderCalls sampleFramework startedApp startedSystems S_OK).filter
        (D3DOp.writesTo startedApp.m_pPerFrameCB)
      = [D3DOp.memcpy startedApp.m_pPerFrameCB
          ⟨startedApp.m_perFrameCBData.m_matProjection, startedApp.m_perFrameCBData.m_matView,
            startedApp.m_perFrameCBData.m_time, startedApp.m_perFrameCBData.m_padding⟩] ∧
    (renderCalls sampleFramework startedApp startedSystems S_OK).findIdx
        (D3DOp.writesTo startedApp.m_pPerFrameCB)
      < (renderCalls sampleFramework startedApp startedSystems S_OK).findIdx D3DOp.isDraw :=
  have h := (C4_per_frame_block_written_once sampleFramework startedApp startedSystems S_OK
    (by decide)).2 (by decide)
  ⟨by decide, by decide, h.1, h.2.2.2.2.2⟩

/-- Every state reached from `on_init` holds two different constant buffers. -/
theorem run_buffers_distinct (fw : Framework) (app : MinimalApp) (systems : SystemsInterface)
    (cs : List Callback) :
    ∃ r, run fw cs (on_init fw app systems) = some r ∧ r.1.m_pPerFrameCB ≠ r.1.m_pPerDrawCB := by
  obtain ⟨r, h, -, hg, -⟩ := run_keeps fw cs (on_init fw app systems)
  refine ⟨r, h, ?_⟩
  rw [on_init_gpuObjects] at hg
  simp only [MinimalApp.gpuObjects, Prod.mk.injEq] at hg
  obtain ⟨-, h2, h3, -⟩ := hg
  rw [h2, h3]
  simp

/-- Claim C9: whatever was bound before, at the moment of every draw of one
`on_render` the shader set, the per-frame and per-draw constant buffers at
slots 0 and 1 of the vertex and pixel stages, and the sampler at pixel slot 0
are bound; the draw of model `i` draws `m_meshArray[i]`, the mesh bound last
is `m_meshArray[i]` and the texture bound last at pixel slot 0 is
`m_textures[i]`; the binds are issued in one fixed order. -/
theorem C9_bound_before_draw (fw : Framework) (app : MinimalApp)
    (systems : SystemsInterface) (hr : HRESULT) (p0 : Pipeline) :
    (drawSnapshots p0 (renderCalls fw app systems hr)).map (fun s => s.2.1)
      = [0, 0, 0, 0, 0, 1, 1, 1, 1, 1] ∧
    (∀ s ∈ drawSnapshots p0 (renderCalls fw app systems hr),
      s.1.shader = some app.m_meshShader ∧
      s.1.vsConstantBuffers 0 = some app.m_pPerFrameCB ∧
      s.1.vsConstantBuffers 1 = some app.m_pPerDrawCB ∧
      s.1.psConstantBuffers 0 = some app.m_pPerFrameCB ∧
      s.1.psConstantBuffers 1 = some app.m_pPerDrawCB ∧
      s.1.psSamplers 0 = some app.m_pLinearMipSamplerState ∧
      ∃ mesh texture, app.m_meshArray.get? s.2.1 = some mesh ∧
        app.m_textures.get? s.2.1 = some texture ∧
        s.2.2 = mesh ∧ s.1.mesh = some (s.2.1, mesh) ∧
        s.1.psTextures 0 = some (s.2.1, texture)) ∧
    (renderCalls fw app systems hr).filter D3DOp.isBind =
      [D3DOp.shaderBind app.m_meshShader,
       D3DOp.VSSetConstantBuffers 0 [app.m_pPerFrameCB, app.m_pPerDrawCB],
       D3DOp.PSSetConstantBuffers 0 [app.m_pPerFrameCB, app.m_pPerDrawCB],
       D3DOp.PSSetSamplers 0 [app.m_pLinearMipSamplerState],
       D3DOp.meshBind 0 app.m_meshArray.e0,
       D3DOp.textureBind 0 app.m_textures.e0 ShaderStage.kPixel 0,
       D3DOp.meshBind 1 app.m_meshArray.e1,
       D3DOp.textureBind 1 app.m_textures.e1 ShaderStage.kPixel 0] := by
  cases hf : FAILED hr <;>
    simp [renderCalls_eq, frameCalls, sceneCalls, bindCalls, modelCalls, pairCalls, hf,
      drawSnapshots, Pipeline.apply, setSlots, Array2.get?, D3DOp.isBind]

end Minimal
